import Mathlib

/-
Shallow embedding of the Kedarling Yatri Niwas hotel-booking backend
(an Express + Mongoose application).  The authoritative sources are the
unnamed server file `src/unnamed/part_000` (the revision with the
date-range availability query, the roomCategory lookup and the
transactional booking creation) and `src/index.js` (the revision with
duplicate route registrations for the payment and checkout endpoints).

Modelling choices, each justified against the source:
  - Dates are Int millisecond timestamps, matching the JavaScript
    arithmetic `(checkOutDate - checkInDate) / (1000*60*60*24)` fed to
    `Math.ceil`.  Requests with unparseable dates (NaN arithmetic) are
    outside the model; every claim concerns parseable dates.
  - MongoDB documents are records in lists; `find?` models `findOne` /
    `findById` (room numbers are unique by schema, ids are unique by
    construction), `List.filter` models `find` with a query predicate,
    and mapping over a list models `updateMany`.
  - A MongoDB session transaction is modelled by a step-failure oracle
    `txFails : TxStep -> Bool`: a step that fails makes the handler take
    its catch branch, which calls `abortTransaction`, and MongoDB then
    discards every write buffered in the session, so the handler returns
    an error together with the unchanged database state.
  - Mongoose `save` validation (`required`, `enum`) is the predicate
    `validBookingDoc`; mongoose rejects empty strings for required
    string paths and rejects enum violations.
  - `sendBookingEmails` (src/unnamed/part_000 lines 161-357) wraps its
    whole body in try/catch and returns a Bool, never throwing; it is
    modelled as the identity on an SMTP-delivery oracle Bool.
  - Express dispatches a request to the first registered handler whose
    route matches; a handler that responds without calling `next` ends
    the chain.  `src/index.js` registers `PUT /api/bookings/:id/payment`
    twice (lines 528 and 612) and `PUT /api/bookings/:id/checkout` twice
    (lines 547 and 637); in both cases only the first registration ever
    runs, so the dispatched behaviour is `completePaymentV1` and
    `checkoutV1` below, while the V2 handlers are dead code kept here
    because the specification was partly written from them.
-/

namespace KedarlingYatriNiwas

/-- Payment status enum of the booking schema (`src/unnamed/part_000`
line 150): Pending or Completed, default Pending. -/
inductive PaymentStatus
  | Pending
  | Completed
deriving DecidableEq, Repr

/-- Booking status enum of the booking schema (`src/unnamed/part_000`
line 155): Confirmed, Cancelled or Completed, default Confirmed. -/
inductive BookingStatus
  | Confirmed
  | Cancelled
  | Completed
deriving DecidableEq, Repr

/-- One entry of a booking's `selectedRooms` array (`src/unnamed/part_000`
lines 142-145): a room number and the price captured at booking time. -/
structure SelectedRoom where
  roomNumber : String
  price : Int
deriving DecidableEq, Repr

/-- A Room document (`src/unnamed/part_000` lines 122-130).  The schema
enum-validates roomCategory and type on insert; rooms in a database state
are plain strings as stored. -/
structure Room where
  roomCategory : String
  type : String
  roomNumber : String
  isAvailable : Bool
  price : Int
  capacity : Int
  amenities : List String
deriving DecidableEq, Repr

/-- A Booking document (`src/unnamed/part_000` lines 135-156).  The
generated ObjectId is modelled as a Nat.  Optional plumbing fields with
no bearing on any verified claim (customerAddress, arrivalTime,
paymentProof, specialRequests, bookingDate, timestamps) are elided. -/
structure Booking where
  id : Nat
  customerName : String
  customerPhone : String
  customerEmail : Option String
  roomCategory : String
  roomType : String
  selectedRooms : List SelectedRoom
  checkInDate : Int
  checkOutDate : Int
  totalAmount : Int
  paymentStatus : PaymentStatus
  paymentMethod : String
  bookingStatus : BookingStatus
deriving DecidableEq, Repr

/-- The two MongoDB collections the handlers touch: the Room directory
and the Booking ledger. -/
structure DbState where
  rooms : List Room
  bookings : List Booking
deriving DecidableEq, Repr

/-- HTTP-level error outcomes of the handlers: badRequest is a 400
response, notFound a 404; conflict is the 400 'Payment already completed'
response of the guarded payment handler (the specification's
ConflictError). -/
inductive ApiError
  | badRequest
  | notFound
  | conflict
deriving DecidableEq, Repr

/-- Milliseconds per day, the divisor `1000*60*60*24` used for the
nights computation. -/
def msPerDay : Int := 86400000

/-- JavaScript `Math.ceil(a / b)` for integer a and positive integer b:
ceiling division, via floor division (`Int.ediv` with positive divisor)
of the negation. -/
def ceilDivInt (a b : Int) : Int := -(Int.ediv (-a) b)

/-- The booking query of GET /api/rooms/available (`src/unnamed/part_000`
lines 440-448): a booking is fetched when its `checkInDate` is before the
queried checkOut, its `checkOutDate` is after the queried checkIn, and its
`bookingStatus` is not Cancelled. -/
def overlapsActive (checkIn checkOut : Int) (b : Booking) : Bool :=
  decide (b.checkInDate < checkOut) && decide (checkIn < b.checkOutDate) &&
    decide (b.bookingStatus ≠ BookingStatus.Cancelled)

/-- Room numbers referenced by any selectedRooms entry of an overlapping
non-cancelled booking (`src/unnamed/part_000` lines 451-453). -/
def bookedRoomNumbers (bookings : List Booking) (checkIn checkOut : Int) : List String :=
  (bookings.filter (overlapsActive checkIn checkOut)).flatMap
    (fun b => b.selectedRooms.map (fun r => r.roomNumber))

/-- The optional category and type filters of the room query
(`src/unnamed/part_000` lines 460-468); an absent query parameter adds no
filter. -/
def matchesFilter (category ty : Option String) (r : Room) : Bool :=
  (match category with
   | none => true
   | some c => r.roomCategory == c) &&
  (match ty with
   | none => true
   | some t => r.type == t)

/-- The room query of GET /api/rooms/available (`src/unnamed/part_000`
lines 456-471): rooms whose number is not in the booked set, filtered by
the optional category and type parameters.  The room's isAvailable flag
is not part of the query. -/
def availableRooms (rooms : List Room) (bookings : List Booking)
    (checkIn checkOut : Int) (category ty : Option String) : List Room :=
  rooms.filter (fun r =>
    !((bookedRoomNumbers bookings checkIn checkOut).contains r.roomNumber) &&
      matchesFilter category ty r)

/-- The GET /api/rooms/available handler (`src/unnamed/part_000` lines
428-478): rejects with 400 only when checkIn or checkOut is missing,
otherwise runs the availability query.  There is no comparison between
checkIn and checkOut. -/
def listAvailableRooms (st : DbState) (checkIn checkOut : Option Int)
    (category ty : Option String) : Except ApiError (List Room) :=
  match checkIn, checkOut with
  | some ci, some co => Except.ok (availableRooms st.rooms st.bookings ci co category ty)
  | _, _ => Except.error ApiError.badRequest

/-- The three write steps of a handler's MongoDB session: saving the
booking document, updating the rooms, committing the transaction.  A
failure oracle over these steps injects infrastructure failures. -/
inductive TxStep
  | saveBooking
  | updateRooms
  | commitTx
deriving DecidableEq, Repr

/-- Mongoose `required` plus `enum` validation of a booking document
about to be saved (`src/unnamed/part_000` lines 135-156): required string
paths reject empty strings, enum paths reject values outside the enum,
and an absent paymentMethod falls back to the schema default 'online'.
Number paths (price, totalAmount) accept any integer, zero and negatives
included. -/
def validBookingDoc (customerName customerPhone roomCategory roomType : String)
    (paymentMethod : Option String) (selectedRooms : List SelectedRoom) : Bool :=
  customerName != "" && customerPhone != "" &&
  (roomCategory == "Suite" || roomCategory == "Standard") &&
  (roomType == "AC" || roomType == "Non-AC" || roomType == "General") &&
  (match paymentMethod with
   | none => true
   | some m => m == "online" || m == "cash") &&
  selectedRooms.all (fun s => s.roomNumber != "")

/-- Body of a POST /api/bookings request after multipart parsing and
`JSON.parse(formData.selectedRooms)` (`src/unnamed/part_000` lines
486-487); dates are parsed millisecond timestamps. -/
structure BookingForm where
  customerName : String
  customerPhone : String
  customerEmail : Option String
  roomType : String
  selectedRooms : List SelectedRoom
  checkInDate : Int
  checkOutDate : Int
  paymentMethod : Option String
deriving DecidableEq, Repr

/-- Number of nights charged (`src/unnamed/part_000` line 490):
`Math.ceil((checkOutDate - checkInDate) / (1000*60*60*24))`, with no
lower bound. -/
def bookingNights (form : BookingForm) : Int :=
  ceilDivInt (form.checkOutDate - form.checkInDate) msPerDay

/-- Room category stored on the booking (`src/unnamed/part_000` lines
494-495): the category of the directory room matching the first selected
room number, or 'Standard' when no such room exists.  The empty-selection
branch is unreachable from `createBooking`, which has already indexed
`selectedRooms[0]`. -/
def inferredCategory (st : DbState) (form : BookingForm) : String :=
  match form.selectedRooms with
  | [] => "Standard"
  | s0 :: _ =>
    match st.rooms.find? (fun r => r.roomNumber == s0.roomNumber) with
    | some r => r.roomCategory
    | none => "Standard"

/-- The email helper (`src/unnamed/part_000` lines 161-357): its whole
body is wrapped in try/catch, so it reduces to a Bool reporting whether
SMTP delivery succeeded and can never throw into the route handler. -/
def sendBookingEmails (smtpDeliveryOk : Bool) : Bool := smtpDeliveryOk

/-- Total amount charged (`src/unnamed/part_000` line 491):
`selectedRooms.reduce((sum, room) => sum + room.price * nights, 0)`. -/
def bookingTotalAmount (form : BookingForm) : Int :=
  form.selectedRooms.foldl (fun sum s => sum + s.price * bookingNights form) 0

/-- Sum of the captured per-night prices of a selection; used to state
the totalAmount law `totalAmount = nights * sumPrices`. -/
def sumPrices (l : List SelectedRoom) : Int :=
  l.foldl (fun a s => a + s.price) 0

/-- The booking document built by POST /api/bookings
(`src/unnamed/part_000` lines 497-513). -/
def newBookingDoc (st : DbState) (form : BookingForm) (newId : Nat) : Booking :=
  { id := newId
    customerName := form.customerName
    customerPhone := form.customerPhone
    customerEmail := form.customerEmail
    roomCategory := inferredCategory st form
    roomType := form.roomType
    selectedRooms := form.selectedRooms
    checkInDate := form.checkInDate
    checkOutDate := form.checkOutDate
    totalAmount := bookingTotalAmount form
    paymentStatus := PaymentStatus.Pending
    paymentMethod := form.paymentMethod.getD "online"
    bookingStatus := BookingStatus.Confirmed }

/-- The `Room.updateMany({roomNumber: {$in: ...}}, {$set: {isAvailable:
false}})` step of POST /api/bookings (`src/unnamed/part_000` lines
518-522). -/
def markRoomsUnavailable (rooms : List Room) (sel : List SelectedRoom) : List Room :=
  rooms.map (fun r =>
    if sel.any (fun s => s.roomNumber == r.roomNumber) then
      { r with isAvailable := false }
    else r)

/-- The `Room.updateMany({roomNumber: {$in: ...}}, {$set: {isAvailable:
true}})` step of PUT /api/bookings/:id/checkout (`src/index.js` lines
558-562). -/
def markRoomsAvailable (rooms : List Room) (sel : List SelectedRoom) : List Room :=
  rooms.map (fun r =>
    if sel.any (fun s => s.roomNumber == r.roomNumber) then
      { r with isAvailable := true }
    else r)

/-- Successful response body of POST /api/bookings (`src/unnamed/part_000`
lines 529-533): the saved booking spread together with the emailSent
flag. -/
structure BookingResponse where
  booking : Booking
  emailSent : Bool
deriving DecidableEq, Repr

/-- The POST /api/bookings handler (`src/unnamed/part_000` lines
481-546).  Inside a session transaction it computes nights and
totalAmount, infers roomCategory from the first selected room, builds the
booking document, saves it and flips the selected rooms' isAvailable
flags, then commits; any thrown error (an empty selection makes
`selectedRooms[0].roomNumber` throw, mongoose validation rejects the
document, or an injected infrastructure failure at any write step) lands
in the catch branch, which aborts the transaction, discarding both
buffered writes, and responds 400.  Emails are sent only after the
commit, and their outcome only feeds the response's emailSent flag.  No
step consults room existence, room availability or overlapping bookings
for validation. -/
def createBooking (st : DbState) (form : BookingForm) (newId : Nat)
    (txFails : TxStep → Bool) (smtpOk : Bool) :
    Except ApiError BookingResponse × DbState :=
  match form.selectedRooms with
  | [] => (Except.error ApiError.badRequest, st)
  | _s0 :: _ =>
    if !(validBookingDoc form.customerName form.customerPhone (inferredCategory st form)
          form.roomType form.paymentMethod form.selectedRooms) then
      (Except.error ApiError.badRequest, st)
    else if txFails TxStep.saveBooking || txFails TxStep.updateRooms ||
        txFails TxStep.commitTx then
      (Except.error ApiError.badRequest, st)
    else
      let booking := newBookingDoc st form newId
      (Except.ok { booking := booking, emailSent := sendBookingEmails smtpOk },
       { rooms := markRoomsUnavailable st.rooms form.selectedRooms
         bookings := st.bookings ++ [booking] })

/-- First registration of PUT /api/bookings/:id/payment (`src/index.js`
lines 528-544, identically `src/unnamed/part_000` lines 549-565):
`findByIdAndUpdate` sets paymentStatus to Completed unconditionally,
404 when the id is unknown.  Express dispatches every request for this
route here. -/
def completePaymentV1 (st : DbState) (id : Nat) :
    Except ApiError Booking × DbState :=
  match st.bookings.find? (fun b => b.id == id) with
  | none => (Except.error ApiError.notFound, st)
  | some b =>
    (Except.ok { b with paymentStatus := PaymentStatus.Completed },
     { st with bookings := st.bookings.map (fun x =>
         if x.id == id then { x with paymentStatus := PaymentStatus.Completed } else x) })

/-- Second registration of PUT /api/bookings/:id/payment (`src/index.js`
lines 612-634): rejects an already-Completed payment before updating.
Dead code — the first registration answers every request, so this guard
never runs.  The ObjectId-format check of line 614 is absorbed by the
Nat id model. -/
def completePaymentV2 (st : DbState) (id : Nat) :
    Except ApiError Booking × DbState :=
  match st.bookings.find? (fun b => b.id == id) with
  | none => (Except.error ApiError.notFound, st)
  | some b =>
    if b.paymentStatus == PaymentStatus.Completed then
      (Except.error ApiError.conflict, st)
    else
      (Except.ok { b with paymentStatus := PaymentStatus.Completed },
       { st with bookings := st.bookings.map (fun x =>
           if x.id == id then { x with paymentStatus := PaymentStatus.Completed } else x) })

/-- The dispatched behaviour of PUT /api/bookings/:id/payment: Express
runs the first matching registration, which responds without calling
next, so `completePaymentV1` handles every request. -/
def completePayment (st : DbState) (id : Nat) :
    Except ApiError Booking × DbState :=
  completePaymentV1 st id

/-- Successful response body of PUT /api/bookings/:id/checkout
(`src/index.js` lines 568-571): the room numbers of the booking. -/
structure CheckoutResponse where
  roomNumbers : List String
deriving DecidableEq, Repr

/-- First registration of PUT /api/bookings/:id/checkout (`src/index.js`
lines 547-578, identically `src/unnamed/part_000` lines 568-599): inside
a session transaction, sets isAvailable true on every room whose number
appears in the booking's selectedRooms, sets the booking's bookingStatus
to Completed, commits, and returns the room numbers; 404 and no write
when the id is unknown; any failed step aborts the transaction,
discarding both buffered writes.  Express dispatches every request for
this route here; the second registration (`src/index.js` lines 637-673),
which omits the bookingStatus update, is dead code. -/
def checkout (st : DbState) (id : Nat) (txFails : TxStep → Bool) :
    Except ApiError CheckoutResponse × DbState :=
  match st.bookings.find? (fun b => b.id == id) with
  | none => (Except.error ApiError.notFound, st)
  | some b =>
    if txFails TxStep.updateRooms || txFails TxStep.saveBooking ||
        txFails TxStep.commitTx then
      (Except.error ApiError.badRequest, st)
    else
      (Except.ok { roomNumbers := b.selectedRooms.map (fun s => s.roomNumber) },
       { rooms := markRoomsAvailable st.rooms b.selectedRooms
         bookings := st.bookings.map (fun x =>
           if x.id == id then { x with bookingStatus := BookingStatus.Completed } else x) })

/-- Two Room records agreeing on every field except possibly the
isAvailable flag; the relation under which the availability query is
proved flag-independent. -/
def eqExceptAvail (r1 r2 : Room) : Prop :=
  r1.roomCategory = r2.roomCategory ∧ r1.type = r2.type ∧
  r1.roomNumber = r2.roomNumber ∧ r1.price = r2.price ∧
  r1.capacity = r2.capacity ∧ r1.amenities = r2.amenities

/-- Fault oracle injecting no infrastructure failure. -/
def noTxFault : TxStep → Bool := fun _ => false

/-- Fault oracle failing exactly the room-update write, the forced
failure point of the atomicity property. -/
def failRoomsUpdate : TxStep → Bool := fun s => decide (s = TxStep.updateRooms)

/-- Concrete Standard AC room 101 of the seed data
(`src/unnamed/part_000` line 387). -/
def roomStd101 : Room :=
  { roomCategory := "Standard", type := "AC", roomNumber := "101",
    isAvailable := true, price := 1200, capacity := 2,
    amenities := ["AC", "TV", "WiFi", "Attached Bathroom"] }

/-- Room 101 with its availability flag cleared. -/
def roomStd101Busy : Room := { roomStd101 with isAvailable := false }

/-- Concrete Standard Non-AC room 103 of the seed data
(`src/unnamed/part_000` line 395). -/
def roomStd103 : Room :=
  { roomCategory := "Standard", type := "Non-AC", roomNumber := "103",
    isAvailable := true, price := 1000, capacity := 2,
    amenities := ["Fan", "TV", "Attached Bathroom"] }

/-- A confirmed, payment-pending booking of room 101 for the half-open
range of days 10 to 13 (timestamps kept small; only their order enters
the overlap test). -/
def bkJan : Booking :=
  { id := 1, customerName := "Meera", customerPhone := "7777777777",
    customerEmail := none, roomCategory := "Standard", roomType := "AC",
    selectedRooms := [{ roomNumber := "101", price := 1200 }],
    checkInDate := 10, checkOutDate := 13, totalAmount := 3600,
    paymentStatus := PaymentStatus.Pending, paymentMethod := "online",
    bookingStatus := BookingStatus.Confirmed }

/-- The same booking, cancelled. -/
def bkJanCancelled : Booking := { bkJan with id := 2, bookingStatus := BookingStatus.Cancelled }

/-- Database with rooms 101 and 103 and no bookings. -/
def dbNoBookings : DbState := { rooms := [roomStd101, roomStd103], bookings := [] }

/-- Database with rooms 101 and 103 and the confirmed booking of room
101 for days 10 to 13. -/
def dbWithBkJan : DbState := { rooms := [roomStd101, roomStd103], bookings := [bkJan] }

/-- Database with no rooms and no bookings. -/
def emptyDb : DbState := { rooms := [], bookings := [] }

/-- A well-formed booking request for a room number (999) that exists in
no room directory. -/
def formGhost : BookingForm :=
  { customerName := "Asha", customerPhone := "9999999999",
    customerEmail := none, roomType := "AC",
    selectedRooms := [{ roomNumber := "999", price := 1500 }],
    checkInDate := 0, checkOutDate := 86400000,
    paymentMethod := some "online" }

/-- A well-formed booking request for room 101 whose checkIn equals its
checkOut (a zero-night stay). -/
def formSameDay : BookingForm :=
  { customerName := "Ravi", customerPhone := "8888888888",
    customerEmail := none, roomType := "AC",
    selectedRooms := [{ roomNumber := "101", price := 1200 }],
    checkInDate := 1704844800000, checkOutDate := 1704844800000,
    paymentMethod := some "cash" }

/-- The worked example of the specification: room 101 at 1200 per night,
checkIn 2024-01-10, checkOut 2024-01-13 (UTC millisecond timestamps),
three nights. -/
def formThreeNights : BookingForm :=
  { customerName := "Kiran", customerPhone := "6666666666",
    customerEmail := some "kiran@example.com", roomType := "AC",
    selectedRooms := [{ roomNumber := "101", price := 1200 }],
    checkInDate := 1704844800000, checkOutDate := 1705104000000,
    paymentMethod := some "online" }

/-- Membership characterization of the availability query: a room is
returned exactly when it is in the directory, passes the optional
filters, and no non-cancelled booking referencing its number overlaps
the queried half-open range. -/
theorem mem_availableRooms {rooms : List Room} {bookings : List Booking}
    {ci co : Int} {category ty : Option String} {r : Room} :
    r ∈ availableRooms rooms bookings ci co category ty ↔
      r ∈ rooms ∧ matchesFilter category ty r = true ∧
      ¬ ∃ b, b ∈ bookings ∧ b.bookingStatus ≠ BookingStatus.Cancelled ∧
        (∃ s, s ∈ b.selectedRooms ∧ s.roomNumber = r.roomNumber) ∧
        b.checkInDate < co ∧ ci < b.checkOutDate := by
  simp only [availableRooms, bookedRoomNumbers, overlapsActive, List.mem_filter,
    Bool.and_eq_true, Bool.not_eq_true', List.contains, List.elem_eq_mem,
    decide_eq_false_iff_not, List.mem_flatMap, List.mem_filter, List.mem_map,
    decide_eq_true_eq]
  constructor
  · rintro ⟨hr, hnb, hf⟩
    refine ⟨hr, hf, ?_⟩
    rintro ⟨b, hb, hstat, ⟨s, hs, hsn⟩, hlt1, hlt2⟩
    exact hnb ⟨b, ⟨hb, ⟨hlt1, hlt2⟩, hstat⟩, ⟨s, hs, hsn⟩⟩
  · rintro ⟨hr, hf, hne⟩
    refine ⟨hr, ?_, hf⟩
    rintro ⟨b, ⟨hb, ⟨hlt1, hlt2⟩, hstat⟩, ⟨s, hs, hsn⟩⟩
    exact hne ⟨b, hb, hstat, ⟨s, hs, hsn⟩, hlt1, hlt2⟩

/-- Filtering two pointwise-related lists with predicates that agree on
related elements preserves the pointwise relation. -/
theorem forall₂_filter_congr {α : Type} {R : α → α → Prop} {p q : α → Bool}
    (hpq : ∀ a b, R a b → p a = q b) :
    ∀ {l1 l2 : List α}, List.Forall₂ R l1 l2 →
      List.Forall₂ R (l1.filter p) (l2.filter q) := by
  intro l1 l2 h
  induction h with
  | nil => exact List.Forall₂.nil
  | @cons a b l1' l2' hab htl ih =>
    by_cases hpa : p a = true
    · have hqb : q b = true := by rw [← hpq a b hab]; exact hpa
      rw [List.filter_cons_of_pos hpa, List.filter_cons_of_pos hqb]
      exact List.Forall₂.cons hab ih
    · have hqb : ¬ q b = true := by rw [← hpq a b hab]; exact hpa
      rw [List.filter_cons_of_neg hpa, List.filter_cons_of_neg hqb]
      exact ih

/-- A list is pointwise related to its image under a map whenever every
element is related to its image. -/
theorem forall₂_map_self {α : Type} (R : α → α → Prop) (f : α → α) :
    ∀ l : List α, (∀ x ∈ l, R x (f x)) → List.Forall₂ R l (l.map f) := by
  intro l
  induction l with
  | nil => intro _; exact List.Forall₂.nil
  | cons a l ih =>
    intro h
    simp only [List.map_cons]
    exact List.Forall₂.cons (h a (List.mem_cons_self a l))
      (ih (fun x hx => h x (List.mem_cons_of_mem a hx)))

/-- Accumulator law for the totalAmount fold of POST /api/bookings. -/
theorem foldl_price_mul (n : Int) :
    ∀ (l : List SelectedRoom) (a b : Int),
      l.foldl (fun sum s => sum + s.price * n) (a + b * n) =
        a + (l.foldl (fun acc s => acc + s.price) b) * n := by
  intro l
  induction l with
  | nil => intro a b; rfl
  | cons s l ih =>
    intro a b
    simp only [List.foldl_cons]
    have hacc : a + b * n + s.price * n = a + (b + s.price) * n := by ring
    rw [hacc, ih a (b + s.price)]

/-- The reduce of `src/unnamed/part_000` line 491 equals nights times the
sum of the captured per-night prices. -/
theorem bookingTotalAmount_eq (form : BookingForm) :
    bookingTotalAmount form = bookingNights form * sumPrices form.selectedRooms := by
  have h := foldl_price_mul (bookingNights form) form.selectedRooms 0 0
  simp only [zero_mul, add_zero, zero_add] at h
  unfold bookingTotalAmount sumPrices
  rw [h, mul_comm]

/-- Success-path equation of POST /api/bookings: with a non-empty
selection, a document passing mongoose validation and no infrastructure
failure, the handler commits the booking insert and the room-flag update
and answers 201. -/
theorem createBooking_success_eq (st : DbState) (form : BookingForm) (newId : Nat)
    (txFails : TxStep → Bool) (smtpOk : Bool)
    (hfail : (txFails TxStep.saveBooking || txFails TxStep.updateRooms ||
      txFails TxStep.commitTx) = false)
    (hsel : form.selectedRooms ≠ [])
    (hvalid : validBookingDoc form.customerName form.customerPhone
      (inferredCategory st form) form.roomType form.paymentMethod
      form.selectedRooms = true) :
    createBooking st form newId txFails smtpOk =
      (Except.ok { booking := newBookingDoc st form newId,
                   emailSent := sendBookingEmails smtpOk },
       { rooms := markRoomsUnavailable st.rooms form.selectedRooms
         bookings := st.bookings ++ [newBookingDoc st form newId] }) := by
  cases h : form.selectedRooms with
  | nil => exact absurd h hsel
  | cons s0 rest =>
    rw [h] at hvalid
    simp [createBooking, h, hvalid, hfail]

/-- Inversion of a successful POST /api/bookings: a 201 answer implies a
non-empty selection, a schema-valid document, no infrastructure failure,
and pins down the response and the committed state. -/
theorem createBooking_ok_inversion (st : DbState) (form : BookingForm) (newId : Nat)
    (txFails : TxStep → Bool) (smtpOk : Bool) (resp : BookingResponse) (st1 : DbState)
    (h : createBooking st form newId txFails smtpOk = (Except.ok resp, st1)) :
    form.selectedRooms ≠ [] ∧
    validBookingDoc form.customerName form.customerPhone (inferredCategory st form)
      form.roomType form.paymentMethod form.selectedRooms = true ∧
    (txFails TxStep.saveBooking || txFails TxStep.updateRooms ||
      txFails TxStep.commitTx) = false ∧
    resp = { booking := newBookingDoc st form newId,
             emailSent := sendBookingEmails smtpOk } ∧
    st1 = { rooms := markRoomsUnavailable st.rooms form.selectedRooms,
            bookings := st.bookings ++ [newBookingDoc st form newId] } := by
  cases hsel : form.selectedRooms with
  | nil => simp [createBooking, hsel] at h
  | cons s0 rest =>
    simp only [createBooking, hsel] at h
    cases hv : validBookingDoc form.customerName form.customerPhone
        (inferredCategory st form) form.roomType form.paymentMethod (s0 :: rest) with
    | false => rw [hv] at h; simp at h
    | true =>
      rw [hv] at h
      cases hf : (txFails TxStep.saveBooking || txFails TxStep.updateRooms ||
          txFails TxStep.commitTx) with
      | true => rw [hf] at h; simp at h
      | false =>
        rw [hf] at h
        simp only [Bool.not_true, Bool.false_eq_true, if_false, Prod.mk.injEq,
          Except.ok.injEq] at h
        refine ⟨by simp, rfl, rfl, h.1.symm, h.2.symm⟩

/-- C1: a room passing the query filters is excluded from the
availability result exactly when some non-cancelled booking referencing
it in selectedRooms overlaps the queried range under the half-open rule
(checkInDate below the queried checkOut and the queried checkIn below
checkOutDate); and a Cancelled booking never excludes any room, whatever
its dates. -/
theorem availability_excluded_iff_overlap :
    (∀ (rooms : List Room) (bookings : List Booking) (ci co : Int)
        (category ty : Option String) (r : Room),
      r ∈ rooms → matchesFilter category ty r = true →
      (r ∉ availableRooms rooms bookings ci co category ty ↔
        ∃ b, b ∈ bookings ∧ b.bookingStatus ≠ BookingStatus.Cancelled ∧
          (∃ s, s ∈ b.selectedRooms ∧ s.roomNumber = r.roomNumber) ∧
          b.checkInDate < co ∧ ci < b.checkOutDate)) ∧
    (∀ (rooms : List Room) (pre post : List Booking) (bc : Booking) (ci co : Int)
        (category ty : Option String),
      bc.bookingStatus = BookingStatus.Cancelled →
      availableRooms rooms (pre ++ bc :: post) ci co category ty =
        availableRooms rooms (pre ++ post) ci co category ty) := by
  constructor
  · intro rooms bookings ci co category ty r hr hf
    constructor
    · intro hnot
      by_contra hne
      exact hnot (mem_availableRooms.2 ⟨hr, hf, hne⟩)
    · intro hex hmem
      exact (mem_availableRooms.1 hmem).2.2 hex
  · intro rooms pre post bc ci co category ty hc
    have hov : overlapsActive ci co bc = false := by
      simp [overlapsActive, hc]
    simp [availableRooms, bookedRoomNumbers, List.filter_append, List.filter_cons, hov]

/-- Witness for C1: room 101 with the day-10-to-13 booking of room 101
and the query range 11 to 12; and a cancelled copy of the same booking
changes nothing. -/
theorem availability_excluded_iff_overlap_witness :
    (roomStd101 ∈ dbWithBkJan.rooms) ∧
    matchesFilter none none roomStd101 = true ∧
    (roomStd101 ∉ availableRooms dbWithBkJan.rooms dbWithBkJan.bookings 11 12 none none ↔
      ∃ b, b ∈ dbWithBkJan.bookings ∧ b.bookingStatus ≠ BookingStatus.Cancelled ∧
        (∃ s, s ∈ b.selectedRooms ∧ s.roomNumber = roomStd101.roomNumber) ∧
        b.checkInDate < 12 ∧ 11 < b.checkOutDate) ∧
    bkJanCancelled.bookingStatus = BookingStatus.Cancelled ∧
    availableRooms dbWithBkJan.rooms ([] ++ bkJanCancelled :: [bkJan]) 11 12 none none =
      availableRooms dbWithBkJan.rooms ([] ++ [bkJan]) 11 12 none none :=
  ⟨by decide, by rfl,
   availability_excluded_iff_overlap.1 dbWithBkJan.rooms dbWithBkJan.bookings 11 12
     none none roomStd101 (by decide) (by rfl),
   by rfl,
   availability_excluded_iff_overlap.2 dbWithBkJan.rooms [] [bkJan] bkJanCancelled
     11 12 none none (by rfl)⟩

/-- C9: the availability result is independent of every room's
isAvailable flag — two room directories agreeing except on flags yield
pointwise-agreeing results for every query — and a room whose flag is
false but which no overlapping non-cancelled booking references is still
returned. -/
theorem availability_ignores_isAvailable_flag :
    (∀ (rooms1 rooms2 : List Room) (bookings : List Booking) (ci co : Int)
        (category ty : Option String),
      List.Forall₂ eqExceptAvail rooms1 rooms2 →
      List.Forall₂ eqExceptAvail
        (availableRooms rooms1 bookings ci co category ty)
        (availableRooms rooms2 bookings ci co category ty)) ∧
    (∀ (rooms : List Room) (bookings : List Booking) (ci co : Int)
        (category ty : Option String) (r : Room),
      r ∈ rooms → r.isAvailable = false → matchesFilter category ty r = true →
      (∀ b, b ∈ bookings → b.bookingStatus ≠ BookingStatus.Cancelled →
        b.checkInDate < co → ci < b.checkOutDate →
        ∀ s, s ∈ b.selectedRooms → s.roomNumber ≠ r.roomNumber) →
      r ∈ availableRooms rooms bookings ci co category ty) := by
  constructor
  · intro rooms1 rooms2 bookings ci co category ty h
    refine forall₂_filter_congr ?_ h
    intro a b hab
    obtain ⟨h1, h2, h3, -, -, -⟩ := hab
    unfold matchesFilter
    rw [h1, h2, h3]
  · intro rooms bookings ci co category ty r hr hflag hf hnb
    refine mem_availableRooms.2 ⟨hr, hf, ?_⟩
    rintro ⟨b, hb, hstat, ⟨s, hs, hsn⟩, hlt1, hlt2⟩
    exact hnb b hb hstat hlt1 hlt2 s hs hsn

/-- Witness for C9: clearing room 101's flag changes no query result,
and the flag-cleared room 101 is still returned for a range its booking
does not overlap. -/
theorem availability_ignores_isAvailable_flag_witness :
    List.Forall₂ eqExceptAvail
      (availableRooms [roomStd101, roomStd103] [bkJan] 20 25 none none)
      (availableRooms [roomStd101Busy, roomStd103] [bkJan] 20 25 none none) ∧
    roomStd101Busy.isAvailable = false ∧
    roomStd101Busy ∈ availableRooms [roomStd101Busy, roomStd103] [bkJan] 20 25 none none :=
  ⟨availability_ignores_isAvailable_flag.1 [roomStd101, roomStd103]
      [roomStd101Busy, roomStd103] [bkJan] 20 25 none none
      (List.Forall₂.cons ⟨rfl, rfl, rfl, rfl, rfl, rfl⟩
        (List.Forall₂.cons ⟨rfl, rfl, rfl, rfl, rfl, rfl⟩ List.Forall₂.nil)),
   by rfl,
   availability_ignores_isAvailable_flag.2 [roomStd101Busy, roomStd103] [bkJan] 20 25
     none none roomStd101Busy (by decide) (by rfl) (by rfl) (by decide)⟩

/-- C2 counterexample: with an empty room directory, a booking request
selecting the nonexistent room 999 is accepted — the handler creates the
booking (defaulting roomCategory to Standard) instead of failing with a
validation error naming the room, so no existence, availability or
type-match check happens. -/
theorem createBooking_no_room_validation_cex :
    emptyDb.rooms = [] ∧
    (createBooking emptyDb formGhost 1 noTxFault true).1 =
      Except.ok { booking := newBookingDoc emptyDb formGhost 1, emailSent := true } ∧
    (createBooking emptyDb formGhost 1 noTxFault true).2.bookings =
      [newBookingDoc emptyDb formGhost 1] ∧
    (newBookingDoc emptyDb formGhost 1).roomCategory = "Standard" :=
  ⟨rfl, rfl, rfl, rfl⟩

/-- C2 (amended): createBooking performs no per-room validation — it
never checks that a selected room exists, is free for the range, or
matches the stated type; whenever the document itself passes mongoose
validation and no infrastructure failure occurs, the booking is created
and committed, whatever the room directory and booking ledger hold. -/
theorem createBooking_skips_room_checks :
    ∀ (st : DbState) (form : BookingForm) (newId : Nat)
      (txFails : TxStep → Bool) (smtpOk : Bool),
      (∀ s, txFails s = false) →
      form.selectedRooms ≠ [] →
      validBookingDoc form.customerName form.customerPhone (inferredCategory st form)
        form.roomType form.paymentMethod form.selectedRooms = true →
      (createBooking st form newId txFails smtpOk).1 =
        Except.ok { booking := newBookingDoc st form newId,
                    emailSent := sendBookingEmails smtpOk } ∧
      (createBooking st form newId txFails smtpOk).2.bookings =
        st.bookings ++ [newBookingDoc st form newId] := by
  intro st form newId txFails smtpOk hfail hsel hvalid
  rw [createBooking_success_eq st form newId txFails smtpOk (by simp [hfail]) hsel hvalid]
  exact ⟨rfl, rfl⟩

/-- Witness for C2 (amended), at a state whose booking ledger already
holds an overlapping booking of the very room being selected and whose
directory marks it unavailable: the request still succeeds. -/
theorem createBooking_skips_room_checks_witness :
    (∀ s, noTxFault s = false) ∧
    formThreeNights.selectedRooms ≠ [] ∧
    validBookingDoc formThreeNights.customerName formThreeNights.customerPhone
      (inferredCategory { rooms := [roomStd101Busy], bookings := [bkJan] } formThreeNights)
      formThreeNights.roomType formThreeNights.paymentMethod
      formThreeNights.selectedRooms = true ∧
    ((createBooking { rooms := [roomStd101Busy], bookings := [bkJan] }
        formThreeNights 3 noTxFault false).1 =
      Except.ok { booking := newBookingDoc { rooms := [roomStd101Busy], bookings := [bkJan] }
                    formThreeNights 3,
                  emailSent := sendBookingEmails false } ∧
     (createBooking { rooms := [roomStd101Busy], bookings := [bkJan] }
        formThreeNights 3 noTxFault false).2.bookings =
      [bkJan] ++ [newBookingDoc { rooms := [roomStd101Busy], bookings := [bkJan] }
        formThreeNights 3]) :=
  ⟨fun _ => rfl, by decide, by decide,
   createBooking_skips_room_checks { rooms := [roomStd101Busy], bookings := [bkJan] }
     formThreeNights 3 noTxFault false (fun _ => rfl) (by decide) (by decide)⟩

/-- C5: an infrastructure failure at the room-update step (after the
booking insert was buffered in the session, before the commit) makes
createBooking answer an error with the database state unchanged: the
abort discards both buffered writes, so neither the Booking ledger nor
the Room directory moves. -/
theorem createBooking_rollback_on_failure :
    ∀ (st : DbState) (form : BookingForm) (newId : Nat)
      (txFails : TxStep → Bool) (smtpOk : Bool),
      txFails TxStep.updateRooms = true →
      (createBooking st form newId txFails smtpOk).2 = st ∧
      ∃ e, (createBooking st form newId txFails smtpOk).1 = Except.error e := by
  intro st form newId txFails smtpOk hfail
  cases h : form.selectedRooms with
  | nil => simp [createBooking, h]
  | cons s0 rest =>
    cases hv : validBookingDoc form.customerName form.customerPhone
        (inferredCategory st form) form.roomType form.paymentMethod (s0 :: rest) <;>
      simp [createBooking, h, hv, hfail]

/-- Witness for C5: forcing the room-update write to fail on the
three-night example leaves the database exactly as it was. -/
theorem createBooking_rollback_on_failure_witness :
    failRoomsUpdate TxStep.updateRooms = true ∧
    ((createBooking dbWithBkJan formThreeNights 9 failRoomsUpdate true).2 = dbWithBkJan ∧
     ∃ e, (createBooking dbWithBkJan formThreeNights 9 failRoomsUpdate true).1 =
       Except.error e) :=
  ⟨rfl, createBooking_rollback_on_failure dbWithBkJan formThreeNights 9
    failRoomsUpdate true rfl⟩

/-- C6 counterexample: a request for room 101 at 1200 per night with
checkIn equal to checkOut is accepted and stores totalAmount 0, while
the claimed minimum-one-night formula would give 1200: nights has no
lower bound of 1 in the code. -/
theorem createBooking_totalAmount_no_minimum_cex :
    formSameDay.checkInDate = formSameDay.checkOutDate ∧
    (createBooking dbNoBookings formSameDay 1 noTxFault true).1 =
      Except.ok { booking := newBookingDoc dbNoBookings formSameDay 1, emailSent := true } ∧
    (newBookingDoc dbNoBookings formSameDay 1).totalAmount = 0 ∧
    max 1 (bookingNights formSameDay) * sumPrices formSameDay.selectedRooms = 1200 ∧
    (0 : Int) ≠ 1200 :=
  ⟨rfl, rfl, rfl, by decide, by decide⟩

/-- C6 (amended): every successful createBooking stores
totalAmount = nights times the sum of the selected rooms' captured
prices, where nights = ceil((checkOutDate - checkInDate) in days) with
no minimum (zero or negative when checkOut is not after checkIn); the
spec example of three nights at 1200 still yields 3600. -/
theorem createBooking_totalAmount_formula :
    ∀ (st : DbState) (form : BookingForm) (newId : Nat)
      (txFails : TxStep → Bool) (smtpOk : Bool),
      (∀ s, txFails s = false) →
      form.selectedRooms ≠ [] →
      validBookingDoc form.customerName form.customerPhone (inferredCategory st form)
        form.roomType form.paymentMethod form.selectedRooms = true →
      ∃ resp, (createBooking st form newId txFails smtpOk).1 = Except.ok resp ∧
        resp.booking.totalAmount =
          ceilDivInt (form.checkOutDate - form.checkInDate) msPerDay *
            sumPrices form.selectedRooms := by
  intro st form newId txFails smtpOk hfail hsel hvalid
  refine ⟨{ booking := newBookingDoc st form newId,
            emailSent := sendBookingEmails smtpOk }, ?_, ?_⟩
  · rw [createBooking_success_eq st form newId txFails smtpOk (by simp [hfail]) hsel hvalid]
  · show (newBookingDoc st form newId).totalAmount = _
    exact bookingTotalAmount_eq form

/-- Witness for C6 (amended): the specification's worked example —
checkIn 2024-01-10, checkOut 2024-01-13, one room at 1200 — gives three
nights and totalAmount 3600. -/
theorem createBooking_totalAmount_formula_witness :
    (∀ s, noTxFault s = false) ∧
    formThreeNights.selectedRooms ≠ [] ∧
    validBookingDoc formThreeNights.customerName formThreeNights.customerPhone
      (inferredCategory dbNoBookings formThreeNights) formThreeNights.roomType
      formThreeNights.paymentMethod formThreeNights.selectedRooms = true ∧
    ceilDivInt (formThreeNights.checkOutDate - formThreeNights.checkInDate) msPerDay = 3 ∧
    sumPrices formThreeNights.selectedRooms = 1200 ∧
    (∃ resp, (createBooking dbNoBookings formThreeNights 8 noTxFault true).1 =
        Except.ok resp ∧
      resp.booking.totalAmount =
        ceilDivInt (formThreeNights.checkOutDate - formThreeNights.checkInDate) msPerDay *
          sumPrices formThreeNights.selectedRooms) :=
  ⟨fun _ => rfl, by decide, by decide, by decide, by decide,
   createBooking_totalAmount_formula dbNoBookings formThreeNights 8 noTxFault true
     (fun _ => rfl) (by decide) (by decide)⟩

/-- C7 counterexample: a query whose checkIn equals its checkOut is not
rejected — GET /api/rooms/available answers 200 with a room list. -/
theorem listAvailableRooms_inverted_range_cex :
    listAvailableRooms dbNoBookings (some 20) (some 20) none none =
      Except.ok [roomStd101, roomStd103] :=
  rfl

/-- C7 (amended): GET /api/rooms/available rejects a request only when
checkIn or checkOut is missing; when both are present the query runs
unconditionally, even with checkIn at or after checkOut, and returns the
room list computed by the same overlap formula. -/
theorem listAvailableRooms_no_order_validation :
    (∀ (st : DbState) (ci co : Int) (category ty : Option String),
      co ≤ ci →
      listAvailableRooms st (some ci) (some co) category ty =
        Except.ok (availableRooms st.rooms st.bookings ci co category ty)) ∧
    (∀ (st : DbState) (co : Option Int) (category ty : Option String),
      listAvailableRooms st none co category ty = Except.error ApiError.badRequest) ∧
    (∀ (st : DbState) (ci : Option Int) (category ty : Option String),
      listAvailableRooms st ci none category ty = Except.error ApiError.badRequest) := by
  refine ⟨fun st ci co category ty _ => rfl, fun st co category ty => ?_,
    fun st ci category ty => ?_⟩
  · cases co <;> rfl
  · cases ci <;> rfl

/-- Witness for C7 (amended): the degenerate range 20 to 20 on the
booked state is answered with the query result, not an error. -/
theorem listAvailableRooms_no_order_validation_witness :
    (20 : Int) ≤ 20 ∧
    listAvailableRooms dbWithBkJan (some 20) (some 20) none none =
      Except.ok (availableRooms dbWithBkJan.rooms dbWithBkJan.bookings 20 20 none none) :=
  ⟨by decide,
   listAvailableRooms_no_order_validation.1 dbWithBkJan 20 20 none none (by decide)⟩

/-- C8: once the createBooking transaction commits, an SMTP failure of
the notification helper changes neither the success of the response nor
the committed state — only the soft emailSent flag flips to false. -/
theorem createBooking_email_failure_soft :
    ∀ (st : DbState) (form : BookingForm) (newId : Nat) (txFails : TxStep → Bool)
      (resp : BookingResponse) (st1 : DbState),
      createBooking st form newId txFails true = (Except.ok resp, st1) →
      createBooking st form newId txFails false =
        (Except.ok { booking := resp.booking, emailSent := false }, st1) := by
  intro st form newId txFails resp st1 h
  obtain ⟨hsel, hvalid, hf, hresp, hst1⟩ :=
    createBooking_ok_inversion st form newId txFails true resp st1 h
  rw [createBooking_success_eq st form newId txFails false hf hsel hvalid, hresp, hst1]
  rfl

/-- Witness for C8: the same-day booking committed with working SMTP,
then replayed with failing SMTP, commits the identical state and answers
success with emailSent false. -/
theorem createBooking_email_failure_soft_witness :
    createBooking dbNoBookings formSameDay 2 noTxFault true =
      (Except.ok { booking := newBookingDoc dbNoBookings formSameDay 2,
                   emailSent := true },
       { rooms := markRoomsUnavailable dbNoBookings.rooms formSameDay.selectedRooms,
         bookings := [newBookingDoc dbNoBookings formSameDay 2] }) ∧
    createBooking dbNoBookings formSameDay 2 noTxFault false =
      (Except.ok { booking := newBookingDoc dbNoBookings formSameDay 2,
                   emailSent := false },
       { rooms := markRoomsUnavailable dbNoBookings.rooms formSameDay.selectedRooms,
         bookings := [newBookingDoc dbNoBookings formSameDay 2] }) :=
  ⟨rfl,
   createBooking_email_failure_soft dbNoBookings formSameDay 2 noTxFault
     { booking := newBookingDoc dbNoBookings formSameDay 2, emailSent := true }
     { rooms := markRoomsUnavailable dbNoBookings.rooms formSameDay.selectedRooms,
       bookings := [newBookingDoc dbNoBookings formSameDay 2] } rfl⟩

/-- C10: the stored booking's roomCategory comes solely from the room
directory record matching the first selectedRooms entry; and when no
directory room carries that number, the booking is still created with
roomCategory defaulted to Standard rather than failing. -/
theorem createBooking_roomCategory_from_first_room :
    (∀ (st : DbState) (form : BookingForm) (newId : Nat) (txFails : TxStep → Bool)
        (smtpOk : Bool) (resp : BookingResponse) (st1 : DbState)
        (s0 : SelectedRoom) (rest : List SelectedRoom),
      form.selectedRooms = s0 :: rest →
      createBooking st form newId txFails smtpOk = (Except.ok resp, st1) →
      resp.booking.roomCategory =
        ((st.rooms.find? (fun r => r.roomNumber == s0.roomNumber)).map
          (fun r => r.roomCategory)).getD "Standard") ∧
    (∀ (st : DbState) (form : BookingForm) (newId : Nat) (txFails : TxStep → Bool)
        (smtpOk : Bool) (s0 : SelectedRoom) (rest : List SelectedRoom),
      form.selectedRooms = s0 :: rest →
      st.rooms.find? (fun r => r.roomNumber == s0.roomNumber) = none →
      (∀ s, txFails s = false) →
      validBookingDoc form.customerName form.customerPhone "Standard" form.roomType
        form.paymentMethod form.selectedRooms = true →
      ∃ resp, (createBooking st form newId txFails smtpOk).1 = Except.ok resp ∧
        resp.booking.roomCategory = "Standard") := by
  constructor
  · intro st form newId txFails smtpOk resp st1 s0 rest hsel h
    obtain ⟨-, -, -, hresp, -⟩ :=
      createBooking_ok_inversion st form newId txFails smtpOk resp st1 h
    rw [hresp]
    show inferredCategory st form = _
    rw [inferredCategory, hsel]
    cases hfind : st.rooms.find? (fun r => r.roomNumber == s0.roomNumber) <;> simp [hfind]
  · intro st form newId txFails smtpOk s0 rest hsel hfind hfail hvalid
    have hic : inferredCategory st form = "Standard" := by
      simp [inferredCategory, hsel, hfind]
    refine ⟨{ booking := newBookingDoc st form newId,
              emailSent := sendBookingEmails smtpOk }, ?_, ?_⟩
    · rw [createBooking_success_eq st form newId txFails smtpOk (by simp [hfail])
        (by simp [hsel]) (by rw [hic]; exact hvalid)]
    · show inferredCategory st form = "Standard"
      exact hic

/-- Witness for C10: selecting the nonexistent room 999 over an empty
directory still creates the booking and stores roomCategory Standard. -/
theorem createBooking_roomCategory_from_first_room_witness :
    formGhost.selectedRooms = [{ roomNumber := "999", price := 1500 }] ∧
    emptyDb.rooms.find?
      (fun r => r.roomNumber == SelectedRoom.roomNumber { roomNumber := "999", price := 1500 }) =
      none ∧
    (∃ resp, (createBooking emptyDb formGhost 6 noTxFault true).1 = Except.ok resp ∧
      resp.booking.roomCategory = "Standard") :=
  ⟨rfl, rfl,
   createBooking_roomCategory_from_first_room.2 emptyDb formGhost 6 noTxFault true
     { roomNumber := "999", price := 1500 } [] rfl rfl (fun _ => rfl) (by decide)⟩

/-- C3 evaluation at the failing input: completing payment twice on
booking 1 succeeds both times under the dispatched handler (the first
registration, which updates unconditionally), the guard of the dead
second registration would have answered Conflict, and an unknown id is
answered NotFound with no state change. -/
theorem completePayment_repeat_not_rejected :
    (completePayment dbWithBkJan 1).1 =
      Except.ok { bkJan with paymentStatus := PaymentStatus.Completed } ∧
    (completePayment (completePayment dbWithBkJan 1).2 1).1 =
      Except.ok { bkJan with paymentStatus := PaymentStatus.Completed } ∧
    (completePaymentV2 (completePayment dbWithBkJan 1).2 1).1 =
      Except.error ApiError.conflict ∧
    completePayment dbWithBkJan 99 = (Except.error ApiError.notFound, dbWithBkJan) :=
  ⟨rfl, rfl, rfl, rfl⟩

/-- C4: for a known booking id, checkout answers the booking's room
numbers and commits exactly two changes together — every directory room
referenced by the booking's selectedRooms gets isAvailable true (others
untouched) and the booking's bookingStatus becomes Completed (others
untouched); a failed transaction step leaves the state unchanged; an
unknown id is answered NotFound with no state change. -/
theorem checkout_contract :
    (∀ (st : DbState) (id : Nat) (txFails : TxStep → Bool),
      st.bookings.find? (fun b => b.id == id) = none →
      checkout st id txFails = (Except.error ApiError.notFound, st)) ∧
    (∀ (st : DbState) (id : Nat) (txFails : TxStep → Bool),
      (txFails TxStep.updateRooms || txFails TxStep.saveBooking ||
        txFails TxStep.commitTx) = true →
      (checkout st id txFails).2 = st) ∧
    (∀ (st : DbState) (id : Nat) (txFails : TxStep → Bool) (b : Booking),
      st.bookings.find? (fun x => x.id == id) = some b →
      (txFails TxStep.updateRooms || txFails TxStep.saveBooking ||
        txFails TxStep.commitTx) = false →
      (checkout st id txFails).1 =
        Except.ok { roomNumbers := b.selectedRooms.map (fun s => s.roomNumber) } ∧
      List.Forall₂ (fun r r2 =>
          (b.selectedRooms.any (fun s => s.roomNumber == r.roomNumber) = true →
            r2 = { r with isAvailable := true }) ∧
          (b.selectedRooms.any (fun s => s.roomNumber == r.roomNumber) = false →
            r2 = r))
        st.rooms (checkout st id txFails).2.rooms ∧
      List.Forall₂ (fun x x2 =>
          ((x.id == id) = true → x2 = { x with bookingStatus := BookingStatus.Completed }) ∧
          ((x.id == id) = false → x2 = x))
        st.bookings (checkout st id txFails).2.bookings) := by
  refine ⟨?_, ?_, ?_⟩
  · intro st id txFails hfind
    simp [checkout, hfind]
  · intro st id txFails hor
    cases hfind : st.bookings.find? (fun b => b.id == id) <;>
      simp [checkout, hfind, hor]
  · intro st id txFails b hfind hor
    refine ⟨by simp [checkout, hfind, hor], ?_, ?_⟩
    · have h2 : (checkout st id txFails).2.rooms =
          markRoomsAvailable st.rooms b.selectedRooms := by
        simp [checkout, hfind, hor]
      rw [h2]
      refine forall₂_map_self _ _ st.rooms ?_
      intro r _
      cases hc : b.selectedRooms.any (fun s => s.roomNumber == r.roomNumber) <;>
        simp [hc]
    · have h2 : (checkout st id txFails).2.bookings =
          st.bookings.map (fun x =>
            if x.id == id then { x with bookingStatus := BookingStatus.Completed } else x) := by
        simp [checkout, hfind, hor]
      rw [h2]
      refine forall₂_map_self _ _ st.bookings ?_
      intro x _
      cases hc : (x.id == id) <;> simp [hc]

/-- Witness for C4: checking out booking 1 returns room number 101,
restores room 101's flag, leaves room 103 alone, and completes the
booking; the unknown id 99 is answered NotFound with the state
untouched. -/
theorem checkout_contract_witness :
    dbWithBkJan.bookings.find? (fun b => b.id == 99) = none ∧
    checkout dbWithBkJan 99 noTxFault = (Except.error ApiError.notFound, dbWithBkJan) ∧
    dbWithBkJan.bookings.find? (fun x => x.id == 1) = some bkJan ∧
    (noTxFault TxStep.updateRooms || noTxFault TxStep.saveBooking ||
      noTxFault TxStep.commitTx) = false ∧
    ((checkout dbWithBkJan 1 noTxFault).1 =
      Except.ok { roomNumbers := bkJan.selectedRooms.map (fun s => s.roomNumber) } ∧
     List.Forall₂ (fun r r2 =>
        (bkJan.selectedRooms.any (fun s => s.roomNumber == r.roomNumber) = true →
          r2 = { r with isAvailable := true }) ∧
        (bkJan.selectedRooms.any (fun s => s.roomNumber == r.roomNumber) = false →
          r2 = r))
      dbWithBkJan.rooms (checkout dbWithBkJan 1 noTxFault).2.rooms ∧
     List.Forall₂ (fun x x2 =>
        ((x.id == 1) = true → x2 = { x with bookingStatus := BookingStatus.Completed }) ∧
        ((x.id == 1) = false → x2 = x))
      dbWithBkJan.bookings (checkout dbWithBkJan 1 noTxFault).2.bookings) :=
  ⟨rfl, checkout_contract.1 dbWithBkJan 99 noTxFault rfl, rfl, rfl,
   checkout_contract.2.2 dbWithBkJan 1 noTxFault bkJan rfl rfl⟩

end KedarlingYatriNiwas
